import Mathlib

/-!
# Verification of the MFA session core (`src/backend/user.py`)

This development shallowly embeds the `AuthenticationManager` class of
`src/backend/user.py` and proves properties of it.

* A `Session` mirrors the dictionary stored in `self.mfa_sessions` for one
  session id.  The `asyncio.Event` is modelled by its only observable bit,
  whether `set()` has been called (`mfaEventSet`); the event is never cleared
  in the code.  Timestamps (`datetime.now()`) are modelled as natural-number
  seconds.  The `result` field is carried as an opaque optional payload; the
  code under verification never populates it.
* The session table `self.mfa_sessions : Dict[str, Dict]` is an association
  list `Store` with first-occurrence lookup; the code only inserts fresh
  `uuid4` keys, so keys are pairwise distinct (`StoreNodup` below).
* Each method body is a pure function on the store.  The coroutine
  `authenticate_with_collector` (the detached login run) is broken at its
  `await` points into a small-step relation `TStep` over a program counter
  `LoginPc`; the external `Opower.async_login` exchange is a black box whose
  outcomes (MFA demanded / token returned / exception raised) appear as
  nondeterministic branches.  `GStep` interleaves login tasks with the
  HTTP-facing operations (`create_session`, `submit_mfa`,
  `get_session_access_token`), which is exactly the asyncio execution model:
  shared state may be observed between any two suspension points.
-/

/-- One entry of `self.mfa_sessions` (`user.py` lines 30-40). -/
structure Session where
  username : String
  password : String
  /-- `mfa_event : asyncio.Event`; true once `.set()` has been called. -/
  mfaEventSet : Bool
  mfa_code : Option String
  created_at : Nat
  status : String
  error : Option String
  result : Option String
  access_token : Option String
  deriving Repr, DecidableEq

/-- The in-memory session table, keyed by session id. -/
abbrev Store := List (String × Session)

/-- `self.mfa_sessions.get(session_id)`: first-occurrence lookup. -/
def getStore : Store → String → Option Session
  | [], _ => none
  | (k, s) :: rest, sid => if k = sid then some s else getStore rest sid

/-- Overwrite the entry for `sid` (no-op when absent), as assignment into the
dict entry does. -/
def setStore : Store → String → Session → Store
  | [], _, _ => []
  | (k, s) :: rest, sid, v => if k = sid then (k, v) :: rest else (k, s) :: setStore rest sid v

/-- `del self.mfa_sessions[session_id]`. -/
def eraseStore : Store → String → Store
  | [], _ => []
  | (k, s) :: rest, sid => if k = sid then rest else (k, s) :: eraseStore rest sid

/-- The keys of the table. -/
def storeKeys (st : Store) : List String := st.map Prod.fst

/-- Keys are pairwise distinct: `create_session` only inserts fresh uuid4 ids. -/
def StoreNodup (st : Store) : Prop := (storeKeys st).Nodup

/-- The fresh session dictionary built by `create_session` (lines 30-40). -/
def mkSession (username password : String) (now : Nat) : Session :=
  { username := username
    password := password
    mfaEventSet := false
    mfa_code := none
    created_at := now
    status := "authenticating"
    error := none
    result := none
    access_token := none }

/-- `create_session` (lines 19-46): insert a fresh session under a generated
id.  The uuid4 id and `datetime.now()` are parameters; freshness of the id is
a hypothesis where needed. -/
def create_session (st : Store) (sid username password : String) (now : Nat) : Store :=
  (sid, mkSession username password now) :: st

/-- `submit_mfa` (lines 48-65): reject when the session is absent or its
status is not exactly `"mfa_required"`; otherwise record the code, move to
`"mfa_received"`, set the event, and accept. -/
def submit_mfa (st : Store) (sid code : String) : Bool × Store :=
  match getStore st sid with
  | none => (false, st)
  | some s =>
    if s.status = "mfa_required" then
      (true, setStore st sid
        { s with mfa_code := some code, status := "mfa_received", mfaEventSet := true })
    else
      (false, st)

/-- `update_session_status` (lines 92-103): set `status` unconditionally;
`error` and `result` only when truthy (`if error:` skips both `None` and the
empty string). -/
def update_session_status (st : Store) (sid status : String)
    (error : Option String) (result : Option String) : Store :=
  match getStore st sid with
  | none => st
  | some s =>
    setStore st sid
      { s with
        status := status
        error := match error with
          | some e => if e = "" then s.error else some e
          | none => s.error
        result := match result with
          | some r => if r = "" then s.result else some r
          | none => s.result }

/-- The write performed by `wait_for_mfa`'s timeout handler (lines 81-83):
`session["status"] = "timeout"; session["error"] = "MFA timeout"`.  The
handler writes through the reference captured at entry, which is the store
entry exactly while the session is still in the table. -/
def mark_timeout (st : Store) (sid : String) : Store :=
  match getStore st sid with
  | none => st
  | some s => setStore st sid { s with status := "timeout", error := some "MFA timeout" }

/-- `session["access_token"] = api.access_token` (line 142), a write through
the reference captured at line 109, which is the store entry while the
session is present. -/
def store_access_token (st : Store) (sid tok : String) : Store :=
  match getStore st sid with
  | none => st
  | some s => setStore st sid { s with access_token := some tok }

/-- `get_session_access_token` (lines 157-180): `None` unless the session
exists with status `"success"` and a truthy token (`if not access_token`
rejects both `None` and `""`); return the token while strictly younger than
2 hours, otherwise delete the session and return `None`.  `datetime.now()`
is the `now` parameter; the pair carries the updated table. -/
def get_session_access_token (st : Store) (sid : String) (now : Nat) :
    Option String × Store :=
  match getStore st sid with
  | none => (none, st)
  | some s =>
    if s.status = "success" then
      match s.access_token with
      | none => (none, st)
      | some tok =>
        if tok = "" then (none, st)
        else if now - s.created_at < 2 * 3600 then (some tok, st)
        else (none, eraseStore st sid)
    else (none, st)

/-- The value returned by `authenticate_with_collector` (a JSON-ish dict in
the code): `{"status": "success", ...}` or `{"status": "error", "error": m}`. -/
inductive LoginResult where
  | success
  | error (msg : String)
  deriving Repr, DecidableEq

/-- Program counter of one detached `authenticate_with_collector(sid)` run,
cut at its `await` points.  Each constructor names the next action the
coroutine performs when scheduled. -/
inductive LoginPc where
  /-- About to run line 109: look the session up. -/
  | start
  /-- About to run line 114: `update_session_status(sid, "authenticating")`. -/
  | setAuth1
  /-- Inside `api.async_login`: the external exchange will either demand MFA
  (invoke `mfa_callback`), return a token, or raise. -/
  | loginCall
  /-- In `mfa_callback`, about to run line 128:
  `update_session_status(sid, "mfa_required")`. -/
  | mfaRequired
  /-- About to enter `wait_for_mfa` (line 129 calling lines 72-78). -/
  | waitEnter
  /-- Suspended in `asyncio.wait_for(session["mfa_event"].wait(), timeout)`. -/
  | waiting
  /-- Back in `mfa_callback` with a truthy code, about to run line 133:
  `update_session_status(sid, "authenticating")`. -/
  | setAuth2 (code : String)
  /-- Returned the code into `async_login`; the external exchange will either
  return a token or raise. -/
  | resumeLogin (code : String)
  /-- About to run line 142: `session["access_token"] = api.access_token`. -/
  | storeToken (tok : String)
  /-- About to run line 146: `update_session_status(sid, "success")`. -/
  | setSuccess
  /-- In the `except` handler with `error_msg = m`, about to run line 153:
  `update_session_status(sid, "failed", error=m)`. -/
  | setFailed (msg : String)
  /-- The coroutine returned `r`.  No exception escapes: every path ends
  here (lines 149 and 155). -/
  | done (r : LoginResult)
  deriving Repr, DecidableEq

/-- The check at lines 130-131 applied to `wait_for_mfa`'s return value:
`if not mfa_code: raise Exception("MFA timeout")` — `None` and `""` are both
falsy, and the raise is caught at line 151 and routed to
`update_session_status(sid, "failed", "MFA timeout")`; a truthy code
proceeds to line 133. -/
def mfa_callback_after_wait (code : Option String) : LoginPc :=
  match code with
  | none => .setFailed "MFA timeout"
  | some c => if c = "" then .setFailed "MFA timeout" else .setAuth2 c

/-- One scheduling slice of a detached `authenticate_with_collector sid` run:
from store `st` at program counter `pc`, to store `st'` at `pc'`.  External
nondeterminism (the black-box `async_login` exchange and the race between the
MFA event and `asyncio.wait_for`'s timer) appears as distinct constructors.
Note there is no "raise" outcome: every slice moves the counter forward and
every run ends at `done` (all exceptions are caught at line 151). -/
inductive TStep : Store → String → LoginPc → Store → LoginPc → Prop where
  /-- Lines 109-111: session absent, return the error dict. -/
  | start_absent {st sid} :
      getStore st sid = none →
      TStep st sid .start st (.done (.error "Session not found"))
  /-- Lines 109-113: session present, enter the `try` block. -/
  | start_present {st sid s} :
      getStore st sid = some s →
      TStep st sid .start st .setAuth1
  /-- Line 114. -/
  | auth1 {st sid} :
      TStep st sid .setAuth1
        (update_session_status st sid "authenticating" none none) .loginCall
  /-- `async_login` demands a second factor: it invokes `mfa_callback`. -/
  | login_mfa {st sid} :
      TStep st sid .loginCall st .mfaRequired
  /-- `async_login` completes without MFA; `api.access_token = tok`. -/
  | login_ok {st sid} (tok : String) :
      TStep st sid .loginCall st (.storeToken tok)
  /-- `async_login` raises an exception with message `msg`. -/
  | login_err {st sid} (msg : String) :
      TStep st sid .loginCall st (.setFailed msg)
  /-- Line 128. -/
  | mfa_req {st sid} :
      TStep st sid .mfaRequired
        (update_session_status st sid "mfa_required" none none) .waitEnter
  /-- Lines 72-74: session absent at `wait_for_mfa` entry, return `None`;
  the callback then raises `"MFA timeout"` (lines 130-131). -/
  | wait_absent {st sid} :
      getStore st sid = none →
      TStep st sid .waitEnter st (mfa_callback_after_wait none)
  /-- Line 78 with the event not yet set: suspend. -/
  | wait_pending {st sid s} :
      getStore st sid = some s → s.mfaEventSet = false →
      TStep st sid .waitEnter st .waiting
  /-- Line 78 with the event already set: `wait()` returns at once and
  line 79 reads the current `mfa_code`. -/
  | wait_ready {st sid s} :
      getStore st sid = some s → s.mfaEventSet = true →
      TStep st sid .waitEnter st (mfa_callback_after_wait s.mfa_code)
  /-- The waiter resumes because `submit_mfa` set the event; line 79 reads
  the current `mfa_code`. -/
  | resume_code {st sid s} :
      getStore st sid = some s → s.mfaEventSet = true →
      TStep st sid .waiting st (mfa_callback_after_wait s.mfa_code)
  /-- Lines 80-84: the timer fires first (the event is still unset): record
  `"timeout"` / `"MFA timeout"` and return `None`, which the callback turns
  into the `"MFA timeout"` raise. -/
  | resume_timeout {st sid s} :
      getStore st sid = some s → s.mfaEventSet = false →
      TStep st sid .waiting (mark_timeout st sid) (mfa_callback_after_wait none)
  /-- A session evicted mid-wait: nobody can set the orphaned event any more,
  so only the timer can fire; its write through the dangling reference is
  invisible in the table. -/
  | resume_timeout_absent {st sid} :
      getStore st sid = none →
      TStep st sid .waiting st (mfa_callback_after_wait none)
  /-- Line 133. -/
  | auth2 {st sid} (code : String) :
      TStep st sid (.setAuth2 code)
        (update_session_status st sid "authenticating" none none) (.resumeLogin code)
  /-- `async_login` finishes after the MFA round; `api.access_token = tok`. -/
  | resume_ok {st sid} (code tok : String) :
      TStep st sid (.resumeLogin code) st (.storeToken tok)
  /-- `async_login` raises after the MFA round. -/
  | resume_err {st sid} (code msg : String) :
      TStep st sid (.resumeLogin code) st (.setFailed msg)
  /-- Line 142. -/
  | store_tok {st sid} (tok : String) :
      TStep st sid (.storeToken tok) (store_access_token st sid tok) .setSuccess
  /-- Lines 146-149. -/
  | set_success {st sid} :
      TStep st sid .setSuccess
        (update_session_status st sid "success" none none) (.done .success)
  /-- Lines 151-155. -/
  | set_failed {st sid} (msg : String) :
      TStep st sid (.setFailed msg)
        (update_session_status st sid "failed" (some msg) none) (.done (.error msg))

/-- The running login tasks, one per session id. -/
abbrev Tasks := List (String × LoginPc)

/-- First-occurrence lookup among the tasks. -/
def taskOf : Tasks → String → Option LoginPc
  | [], _ => none
  | (k, p) :: rest, sid => if k = sid then some p else taskOf rest sid

/-- Advance the task for `sid` (no-op when absent). -/
def setTask : Tasks → String → LoginPc → Tasks
  | [], _, _ => []
  | (k, p) :: rest, sid, p' => if k = sid then (k, p') :: rest else (k, p) :: setTask rest sid p'

/-- Global state: the session table plus the detached login runs. -/
structure Config where
  store : Store
  tasks : Tasks
  deriving Repr, DecidableEq

/-- One step of the whole system: schedule one slice of some login task, or
run one of the HTTP-facing operations.  `create` pairs `create_session` with
launching the detached `authenticate_with_collector` task, and its id is
fresh (uuid4). -/
inductive GStep : Config → Config → Prop where
  | task {st : Store} {tasks : Tasks} {sid : String} {pc : LoginPc}
      {st' : Store} {pc' : LoginPc} :
      taskOf tasks sid = some pc →
      TStep st sid pc st' pc' →
      GStep ⟨st, tasks⟩ ⟨st', setTask tasks sid pc'⟩
  | create {st : Store} {tasks : Tasks} (sid username password : String) (now : Nat) :
      getStore st sid = none →
      taskOf tasks sid = none →
      GStep ⟨st, tasks⟩ ⟨create_session st sid username password now, (sid, .start) :: tasks⟩
  | submit {st : Store} {tasks : Tasks} (sid code : String) :
      GStep ⟨st, tasks⟩ ⟨(submit_mfa st sid code).2, tasks⟩
  | getTok {st : Store} {tasks : Tasks} (sid : String) (now : Nat) :
      GStep ⟨st, tasks⟩ ⟨(get_session_access_token st sid now).2, tasks⟩

/-- The empty initial state: no sessions, no tasks. -/
def initConfig : Config := ⟨[], []⟩

/-- A state of some interleaving of the operations, starting from the empty
manager. -/
def Reachable (c : Config) : Prop := Relation.ReflTransGen GStep initConfig c

/-! ### The reachability invariant -/

/-- Fields of a session before the MFA round has started: fresh from
`create_session` up to the point where the callback flips the status. -/
def preMfa (s : Session) : Prop :=
  s.status = "authenticating" ∧ s.access_token = none ∧ s.mfaEventSet = false

/-- Fields of a session while its coordinator is at the MFA wait: either no
code has arrived yet, or `submit_mfa` has already accepted one. -/
def midWait (s : Session) : Prop :=
  s.access_token = none ∧
    ((s.status = "mfa_required" ∧ s.mfaEventSet = false) ∨
     (s.status = "mfa_received" ∧ s.mfaEventSet = true ∧ s.mfa_code ≠ none))

/-- What the session's fields look like at each program counter of its login
task.  This is the inductive invariant tying the table to the coordinator. -/
def pcOk (s : Session) : LoginPc → Prop
  | .start => preMfa s
  | .setAuth1 => preMfa s
  | .loginCall => preMfa s
  | .mfaRequired => preMfa s
  | .waitEnter => midWait s
  | .waiting => midWait s
  | .setAuth2 c =>
      s.status = "mfa_received" ∧ s.mfaEventSet = true ∧
      s.mfa_code = some c ∧ s.access_token = none
  | .resumeLogin _ => s.status = "authenticating" ∧ s.access_token = none
  | .storeToken _ => s.status = "authenticating" ∧ s.access_token = none
  | .setSuccess => s.status = "authenticating" ∧ s.access_token ≠ none
  | .setFailed m =>
      s.access_token = none ∧
      (s.status = "authenticating" ∨ s.status = "mfa_received" ∨
       (s.status = "timeout" ∧ m = "MFA timeout" ∧ s.error = some "MFA timeout"))
  | .done r =>
      (s.status = "success" ∧ s.access_token ≠ none ∧ r = .success) ∨
      (s.status = "failed" ∧ s.access_token = none)

/-- The system invariant: table keys are distinct, and every stored session
has a login task whose program counter matches the session's fields. -/
def SysInv (c : Config) : Prop :=
  StoreNodup c.store ∧
  ∀ sid s, getStore c.store sid = some s →
    ∃ pc, taskOf c.tasks sid = some pc ∧ pcOk s pc

/-! ### Concrete executions used as counterexamples and witnesses

Trace A: a login that succeeds without an MFA round, observed just after the
token write (line 142) and then at completion. -/

def sessA : Session := mkSession "alice" "pw1" 0

def sessA_tok : Session := { sessA with access_token := some "tok0" }

def sessA_done : Session :=
  { sessA with access_token := some "tok0", status := "success" }

def cfgA1 : Config := ⟨[("s1", sessA)], [("s1", .start)]⟩

def cfgA2 : Config := ⟨[("s1", sessA)], [("s1", .setAuth1)]⟩

def cfgA3 : Config := ⟨[("s1", sessA)], [("s1", .loginCall)]⟩

def cfgA4 : Config := ⟨[("s1", sessA)], [("s1", .storeToken "tok0")]⟩

def cfgA5 : Config := ⟨[("s1", sessA_tok)], [("s1", .setSuccess)]⟩

def cfgA6 : Config := ⟨[("s1", sessA_done)], [("s1", .done .success)]⟩

/-- Trace B: a login whose MFA wait times out with no code submitted. -/

def sessB : Session := mkSession "bob" "pw2" 0

def sessB_req : Session := { sessB with status := "mfa_required" }

def sessB_to : Session :=
  { sessB with status := "timeout", error := some "MFA timeout" }

def sessB_fail : Session :=
  { sessB with status := "failed", error := some "MFA timeout" }

def cfgB1 : Config := ⟨[("s1", sessB)], [("s1", .start)]⟩

def cfgB2 : Config := ⟨[("s1", sessB)], [("s1", .setAuth1)]⟩

def cfgB3 : Config := ⟨[("s1", sessB)], [("s1", .loginCall)]⟩

def cfgB4 : Config := ⟨[("s1", sessB)], [("s1", .mfaRequired)]⟩

def cfgB5 : Config := ⟨[("s1", sessB_req)], [("s1", .waitEnter)]⟩

def cfgB6 : Config := ⟨[("s1", sessB_req)], [("s1", .waiting)]⟩

def cfgB7 : Config := ⟨[("s1", sessB_to)], [("s1", .setFailed "MFA timeout")]⟩

def cfgB8 : Config := ⟨[("s1", sessB_fail)], [("s1", .done (.error "MFA timeout"))]⟩

/-- Trace C: the external exchange raises an exception whose message is the
empty string (`str(e) == ""`). -/

def sessC : Session := mkSession "carol" "pw3" 0

def sessC_fail : Session := { sessC with status := "failed" }

def cfgC1 : Config := ⟨[("s1", sessC)], [("s1", .start)]⟩

def cfgC2 : Config := ⟨[("s1", sessC)], [("s1", .setAuth1)]⟩

def cfgC3 : Config := ⟨[("s1", sessC)], [("s1", .loginCall)]⟩

def cfgC4 : Config := ⟨[("s1", sessC)], [("s1", .setFailed "")]⟩

def cfgC5 : Config := ⟨[("s1", sessC_fail)], [("s1", .done (.error ""))]⟩

/-- Concrete tables for the pure-function claims. -/

def sessW5 : Session := { mkSession "dave" "pw4" 0 with status := "mfa_required" }

def W5store : Store := [("s1", sessW5)]

def sessW6 : Session :=
  { mkSession "erin" "pw5" 0 with status := "success", access_token := some "tok6" }

def W6store : Store := [("s1", sessW6)]

/-- A successful session whose stored token is the empty string: reachable
when the external API hands back `access_token = ""`. -/
def sessC6 : Session :=
  { mkSession "frank" "pw6" 0 with status := "success", access_token := some "" }

def C6store : Store := [("s1", sessC6)]

/-! ### Lookup/update lemmas for the association-list table -/

theorem getStore_setStore_self {st : Store} {sid : String} {s v : Session}
    (h : getStore st sid = some s) :
    getStore (setStore st sid v) sid = some v := by
  induction st with
  | nil => simp [getStore] at h
  | cons hd tl ih =>
    by_cases hk : hd.1 = sid
    · simp [getStore, setStore, hk]
    · simp [getStore, setStore, hk] at h ⊢
      exact ih h

theorem getStore_setStore_ne {st : Store} {sid sid' : String} {v : Session}
    (h : sid' ≠ sid) :
    getStore (setStore st sid v) sid' = getStore st sid' := by
  induction st with
  | nil => simp [setStore]
  | cons hd tl ih =>
    by_cases hk : hd.1 = sid
    · subst hk
      simp [getStore, setStore, Ne.symm h]
    · simp only [setStore, if_neg hk]
      by_cases hk' : hd.1 = sid'
      · simp [getStore, hk']
      · simp [getStore, hk', ih]

theorem setStore_absent {st : Store} {sid : String} {v : Session}
    (h : getStore st sid = none) : setStore st sid v = st := by
  induction st with
  | nil => simp [setStore]
  | cons hd tl ih =>
    by_cases hk : hd.1 = sid
    · simp [getStore, hk] at h
    · simp [getStore, hk] at h
      simp [setStore, hk, ih h]

theorem storeKeys_setStore (st : Store) (sid : String) (v : Session) :
    storeKeys (setStore st sid v) = storeKeys st := by
  induction st with
  | nil => simp [setStore]
  | cons hd tl ih =>
    by_cases hk : hd.1 = sid
    · simp [setStore, hk, storeKeys]
    · simp [setStore, hk, storeKeys] at ih ⊢
      exact ih

theorem getStore_none_iff {st : Store} {sid : String} :
    getStore st sid = none ↔ sid ∉ storeKeys st := by
  induction st with
  | nil => simp [getStore, storeKeys]
  | cons hd tl ih =>
    by_cases hk : hd.1 = sid
    · simp [getStore, storeKeys, hk]
    · simp [getStore, storeKeys, hk, ih, Ne.symm hk]

theorem storeKeys_eraseStore_sublist (st : Store) (sid : String) :
    (storeKeys (eraseStore st sid)).Sublist (storeKeys st) := by
  induction st with
  | nil => simp [eraseStore]
  | cons hd tl ih =>
    by_cases hk : hd.1 = sid
    · simp only [eraseStore, if_pos hk, storeKeys, List.map]
      exact (List.sublist_cons_self _ _)
    · simp only [eraseStore, if_neg hk, storeKeys, List.map]
      exact List.Sublist.cons₂ _ ih

theorem getStore_eraseStore_self {st : Store} {sid : String}
    (hnd : StoreNodup st) :
    getStore (eraseStore st sid) sid = none := by
  induction st with
  | nil => simp [eraseStore, getStore]
  | cons hd tl ih =>
    have hnd' : StoreNodup tl := by
      simpa [StoreNodup, storeKeys] using hnd.of_cons
    by_cases hk : hd.1 = sid
    · simp only [eraseStore, if_pos hk]
      rw [getStore_none_iff]
      subst hk
      simpa [StoreNodup, storeKeys] using hnd.not_mem
    · simp [eraseStore, getStore, hk, ih hnd']

theorem getStore_eraseStore_ne {st : Store} {sid sid' : String}
    (h : sid' ≠ sid) :
    getStore (eraseStore st sid) sid' = getStore st sid' := by
  induction st with
  | nil => simp [eraseStore]
  | cons hd tl ih =>
    by_cases hk : hd.1 = sid
    · subst hk
      simp [eraseStore, getStore, Ne.symm h]
    · by_cases hk' : hd.1 = sid'
      · simp [eraseStore, getStore, hk, hk', h]
      · simp [eraseStore, getStore, hk, hk', ih]

theorem taskOf_setTask_self {ts : Tasks} {sid : String} {p p' : LoginPc}
    (h : taskOf ts sid = some p) :
    taskOf (setTask ts sid p') sid = some p' := by
  induction ts with
  | nil => simp [taskOf] at h
  | cons hd tl ih =>
    by_cases hk : hd.1 = sid
    · simp [taskOf, setTask, hk]
    · simp [taskOf, setTask, hk] at h ⊢
      exact ih h

theorem taskOf_setTask_ne {ts : Tasks} {sid sid' : String} {p' : LoginPc}
    (h : sid' ≠ sid) :
    taskOf (setTask ts sid p') sid' = taskOf ts sid' := by
  induction ts with
  | nil => simp [setTask]
  | cons hd tl ih =>
    by_cases hk : hd.1 = sid
    · subst hk
      simp [taskOf, setTask, Ne.symm h]
    · simp only [setTask, if_neg hk]
      by_cases hk' : hd.1 = sid'
      · simp [taskOf, hk']
      · simp [taskOf, hk', ih]

/-! ### Effect of each operation on the table, entry by entry -/

theorem update_session_status_absent {st : Store} {sid : String}
    {c : String} {e r : Option String} (h : getStore st sid = none) :
    update_session_status st sid c e r = st := by
  simp [update_session_status, h]

theorem getStore_update_self {st : Store} {sid : String} {s : Session}
    {c : String} {e r : Option String} (h : getStore st sid = some s) :
    getStore (update_session_status st sid c e r) sid =
      some { s with
        status := c
        error := match e with
          | some e' => if e' = "" then s.error else some e'
          | none => s.error
        result := match r with
          | some r' => if r' = "" then s.result else some r'
          | none => s.result } := by
  simp only [update_session_status, h]
  exact getStore_setStore_self h

theorem getStore_update_ne {st : Store} {sid sid' : String}
    {c : String} {e r : Option String} (h : sid' ≠ sid) :
    getStore (update_session_status st sid c e r) sid' = getStore st sid' := by
  unfold update_session_status
  cases hg : getStore st sid with
  | none => rfl
  | some s => exact getStore_setStore_ne h

theorem storeKeys_update (st : Store) (sid : String)
    (c : String) (e r : Option String) :
    storeKeys (update_session_status st sid c e r) = storeKeys st := by
  unfold update_session_status
  cases hg : getStore st sid with
  | none => rfl
  | some s => exact storeKeys_setStore st sid _

theorem mark_timeout_absent {st : Store} {sid : String}
    (h : getStore st sid = none) : mark_timeout st sid = st := by
  simp [mark_timeout, h]

theorem getStore_mark_timeout_self {st : Store} {sid : String} {s : Session}
    (h : getStore st sid = some s) :
    getStore (mark_timeout st sid) sid =
      some { s with status := "timeout", error := some "MFA timeout" } := by
  simp only [mark_timeout, h]
  exact getStore_setStore_self h

theorem getStore_mark_timeout_ne {st : Store} {sid sid' : String}
    (h : sid' ≠ sid) :
    getStore (mark_timeout st sid) sid' = getStore st sid' := by
  unfold mark_timeout
  cases hg : getStore st sid with
  | none => rfl
  | some s => exact getStore_setStore_ne h

theorem storeKeys_mark_timeout (st : Store) (sid : String) :
    storeKeys (mark_timeout st sid) = storeKeys st := by
  unfold mark_timeout
  cases hg : getStore st sid with
  | none => rfl
  | some s => exact storeKeys_setStore st sid _

theorem store_access_token_absent {st : Store} {sid tok : String}
    (h : getStore st sid = none) : store_access_token st sid tok = st := by
  simp [store_access_token, h]

theorem getStore_store_access_token_self {st : Store} {sid tok : String}
    {s : Session} (h : getStore st sid = some s) :
    getStore (store_access_token st sid tok) sid =
      some { s with access_token := some tok } := by
  simp only [store_access_token, h]
  exact getStore_setStore_self h

theorem getStore_store_access_token_ne {st : Store} {sid sid' tok : String}
    (h : sid' ≠ sid) :
    getStore (store_access_token st sid tok) sid' = getStore st sid' := by
  unfold store_access_token
  cases hg : getStore st sid with
  | none => rfl
  | some s => exact getStore_setStore_ne h

theorem storeKeys_store_access_token (st : Store) (sid tok : String) :
    storeKeys (store_access_token st sid tok) = storeKeys st := by
  unfold store_access_token
  cases hg : getStore st sid with
  | none => rfl
  | some s => exact storeKeys_setStore st sid _

theorem submit_mfa_snd_rejected {st : Store} {sid code : String}
    (h : ∀ s, getStore st sid = some s → s.status ≠ "mfa_required") :
    submit_mfa st sid code = (false, st) := by
  unfold submit_mfa
  cases hg : getStore st sid with
  | none => rfl
  | some s => simp [h s hg]

theorem storeKeys_submit_snd (st : Store) (sid code : String) :
    storeKeys (submit_mfa st sid code).2 = storeKeys st := by
  unfold submit_mfa
  cases hg : getStore st sid with
  | none => rfl
  | some s =>
    by_cases hs : s.status = "mfa_required"
    · simp only [if_pos hs]
      exact storeKeys_setStore st sid _
    · simp [hs]

theorem getStore_submit_snd_ne {st : Store} {sid sid' code : String}
    (h : sid' ≠ sid) :
    getStore (submit_mfa st sid code).2 sid' = getStore st sid' := by
  unfold submit_mfa
  cases hg : getStore st sid with
  | none => rfl
  | some s =>
    by_cases hs : s.status = "mfa_required"
    · simp only [if_pos hs]
      exact getStore_setStore_ne h
    · simp [hs]

theorem get_token_snd_cases (st : Store) (sid : String) (now : Nat) :
    (get_session_access_token st sid now).2 = st ∨
      (get_session_access_token st sid now).2 = eraseStore st sid := by
  unfold get_session_access_token
  cases hg : getStore st sid with
  | none => exact Or.inl rfl
  | some s =>
    by_cases hs : s.status = "success"
    · simp only [if_pos hs]
      cases ht : s.access_token with
      | none => exact Or.inl rfl
      | some tok =>
        by_cases he : tok = ""
        · simp [he]
        · by_cases hage : now - s.created_at < 2 * 3600 <;> simp [he, hage]
    · simp [hs]


theorem tstep_keys {st st' : Store} {sid : String} {pc pc' : LoginPc}
    (h : TStep st sid pc st' pc') : storeKeys st' = storeKeys st := by
  cases h <;>
    first
      | rfl
      | apply storeKeys_update
      | apply storeKeys_mark_timeout
      | apply storeKeys_store_access_token

theorem tstep_frame {st st' : Store} {sid : String} {pc pc' : LoginPc}
    (h : TStep st sid pc st' pc') :
    ∀ sid', sid' ≠ sid → getStore st' sid' = getStore st sid' := by
  cases h <;> intro sid' hne <;>
    first
      | rfl
      | exact getStore_update_ne hne
      | exact getStore_mark_timeout_ne hne
      | exact getStore_store_access_token_ne hne

theorem inv_preserve_aux {st st' : Store} {tasks : Tasks} {sid : String}
    {pcOld pc' : LoginPc}
    (hkeys : storeKeys st' = storeKeys st)
    (hframe : ∀ sid', sid' ≠ sid → getStore st' sid' = getStore st sid')
    (hnd : StoreNodup st)
    (hsess : ∀ sid0 s, getStore st sid0 = some s →
      ∃ pc0, taskOf tasks sid0 = some pc0 ∧ pcOk s pc0)
    (htask : taskOf tasks sid = some pcOld)
    (hself : ∀ s', getStore st' sid = some s' → pcOk s' pc') :
    SysInv ⟨st', setTask tasks sid pc'⟩ := by
  constructor
  · unfold StoreNodup
    rw [hkeys]
    exact hnd
  · intro sid' s' hg'
    by_cases hsid : sid' = sid
    · subst hsid
      exact ⟨pc', taskOf_setTask_self htask, hself s' hg'⟩
    · rw [hframe sid' hsid] at hg'
      obtain ⟨pc0, hpc0, hok⟩ := hsess sid' s' hg'
      refine ⟨pc0, ?_, hok⟩
      rw [taskOf_setTask_ne hsid]
      exact hpc0

theorem getStore_update_self_plain {st : Store} {sid : String} {s : Session}
    {c : String} (h : getStore st sid = some s) :
    getStore (update_session_status st sid c none none) sid =
      some { s with status := c } :=
  getStore_update_self h

theorem getStore_update_self_err {st : Store} {sid : String} {s : Session}
    {c m : String} (h : getStore st sid = some s) :
    getStore (update_session_status st sid c (some m) none) sid =
      some { s with status := c, error := if m = "" then s.error else some m } :=
  getStore_update_self h

/-- The heart of the development: every step of the interleaved system
preserves the invariant. -/
theorem sysInv_step {c c' : Config} (hinv : SysInv c) (hstep : GStep c c') :
    SysInv c' := by
  cases hstep with
  | @task st tasks sid pc st' pc' htask htstep =>
    obtain ⟨hnd, hsess⟩ := hinv
    have hokOf : ∀ s, getStore st sid = some s → pcOk s pc := by
      intro s hg
      obtain ⟨pc0, hpc0, hok⟩ := hsess sid s hg
      rw [htask] at hpc0
      injection hpc0 with h
      subst h
      exact hok
    refine inv_preserve_aux (tstep_keys htstep) (tstep_frame htstep) hnd hsess htask ?_
    intro s' hg'
    cases htstep with
    | start_absent habs =>
      rw [habs] at hg'
      cases hg'
    | start_present hpres =>
      simpa [pcOk] using hokOf s' hg'
    | auth1 =>
      cases hg0 : getStore st sid with
      | none =>
        rw [update_session_status_absent hg0, hg0] at hg'
        cases hg'
      | some s =>
        have hok := hokOf s hg0
        rw [getStore_update_self_plain hg0] at hg'
        injection hg' with h
        subst h
        simp only [pcOk, preMfa] at hok ⊢
        exact ⟨trivial, hok.2.1, hok.2.2⟩
    | login_mfa =>
      simpa [pcOk] using hokOf s' hg'
    | login_ok tok =>
      have hok := hokOf s' hg'
      simp only [pcOk, preMfa] at hok ⊢
      exact ⟨hok.1, hok.2.1⟩
    | login_err msg =>
      have hok := hokOf s' hg'
      simp only [pcOk, preMfa] at hok ⊢
      exact ⟨hok.2.1, Or.inl hok.1⟩
    | mfa_req =>
      cases hg0 : getStore st sid with
      | none =>
        rw [update_session_status_absent hg0, hg0] at hg'
        cases hg'
      | some s =>
        have hok := hokOf s hg0
        rw [getStore_update_self_plain hg0] at hg'
        injection hg' with h
        subst h
        simp only [pcOk, preMfa, midWait] at hok ⊢
        exact ⟨hok.2.1, Or.inl ⟨trivial, hok.2.2⟩⟩
    | wait_absent habs =>
      rw [habs] at hg'
      cases hg'
    | wait_pending hpres hev =>
      simpa [pcOk] using hokOf s' hg'
    | @wait_ready s hpres hev =>
      rw [hpres] at hg'
      injection hg' with h
      subst h
      have hok := hokOf s hpres
      simp only [pcOk, midWait] at hok
      rcases hok with ⟨htok, ⟨hstat, hevf⟩ | ⟨hstat, _, hcode⟩⟩
      · rw [hev] at hevf
        simp at hevf
      · cases hc : s.mfa_code with
        | none => exact absurd hc hcode
        | some cde =>
          by_cases hce : cde = ""
          · simp [mfa_callback_after_wait, hc, hce, pcOk, htok, hstat]
          · simp [mfa_callback_after_wait, hc, hce, pcOk, htok, hstat, hev]
    | @resume_code s hpres hev =>
      rw [hpres] at hg'
      injection hg' with h
      subst h
      have hok := hokOf s hpres
      simp only [pcOk, midWait] at hok
      rcases hok with ⟨htok, ⟨hstat, hevf⟩ | ⟨hstat, _, hcode⟩⟩
      · rw [hev] at hevf
        simp at hevf
      · cases hc : s.mfa_code with
        | none => exact absurd hc hcode
        | some cde =>
          by_cases hce : cde = ""
          · simp [mfa_callback_after_wait, hc, hce, pcOk, htok, hstat]
          · simp [mfa_callback_after_wait, hc, hce, pcOk, htok, hstat, hev]
    | @resume_timeout s hpres hev =>
      have hok := hokOf s hpres
      rw [getStore_mark_timeout_self hpres] at hg'
      injection hg' with h
      subst h
      simp only [pcOk, midWait] at hok
      rcases hok with ⟨htok, ⟨hstat, _⟩ | ⟨hstat, hevt, _⟩⟩
      · simp [mfa_callback_after_wait, pcOk, htok]
      · rw [hev] at hevt
        simp at hevt
    | resume_timeout_absent habs =>
      rw [habs] at hg'
      cases hg'
    | auth2 code =>
      cases hg0 : getStore st sid with
      | none =>
        rw [update_session_status_absent hg0, hg0] at hg'
        cases hg'
      | some s =>
        have hok := hokOf s hg0
        rw [getStore_update_self_plain hg0] at hg'
        injection hg' with h
        subst h
        simp only [pcOk] at hok ⊢
        exact ⟨trivial, hok.2.2.2⟩
    | resume_ok code tok =>
      have hok := hokOf s' hg'
      simp only [pcOk] at hok ⊢
      exact hok
    | resume_err code msg =>
      have hok := hokOf s' hg'
      simp only [pcOk] at hok ⊢
      exact ⟨hok.2, Or.inl hok.1⟩
    | store_tok tok =>
      cases hg0 : getStore st sid with
      | none =>
        rw [store_access_token_absent hg0, hg0] at hg'
        cases hg'
      | some s =>
        have hok := hokOf s hg0
        rw [getStore_store_access_token_self hg0] at hg'
        injection hg' with h
        subst h
        simp only [pcOk] at hok ⊢
        exact ⟨hok.1, by simp⟩
    | set_success =>
      cases hg0 : getStore st sid with
      | none =>
        rw [update_session_status_absent hg0, hg0] at hg'
        cases hg'
      | some s =>
        have hok := hokOf s hg0
        rw [getStore_update_self_plain hg0] at hg'
        injection hg' with h
        subst h
        simp only [pcOk] at hok ⊢
        exact Or.inl ⟨trivial, hok.2, trivial⟩
    | set_failed msg =>
      cases hg0 : getStore st sid with
      | none =>
        rw [update_session_status_absent hg0, hg0] at hg'
        cases hg'
      | some s =>
        have hok := hokOf s hg0
        rw [getStore_update_self_err hg0] at hg'
        injection hg' with h
        subst h
        simp only [pcOk] at hok ⊢
        exact Or.inr ⟨trivial, hok.1⟩
  | @create st tasks sid username password now hfresh hfreshT =>
    obtain ⟨hnd, hsess⟩ := hinv
    constructor
    · unfold StoreNodup storeKeys create_session
      simp only [List.map_cons, List.nodup_cons]
      exact ⟨by simpa [storeKeys] using getStore_none_iff.mp hfresh, hnd⟩
    · intro sid' s' hg'
      by_cases hsid : sid' = sid
      · subst hsid
        simp only [create_session, getStore, if_pos rfl] at hg'
        injection hg' with h
        refine ⟨.start, by simp [taskOf], ?_⟩
        rw [← h]
        simp [pcOk, preMfa, mkSession]
      · simp only [create_session, getStore, if_neg (Ne.symm hsid)] at hg'
        obtain ⟨pc0, hpc0, hok⟩ := hsess sid' s' hg'
        refine ⟨pc0, ?_, hok⟩
        simp only [taskOf, if_neg (Ne.symm hsid)]
        exact hpc0
  | @submit st tasks sid code =>
    obtain ⟨hnd, hsess⟩ := hinv
    constructor
    · unfold StoreNodup
      rw [storeKeys_submit_snd]
      exact hnd
    · intro sid' s' hg'
      by_cases hsid : sid' = sid
      · rw [hsid] at hg' ⊢
        cases hg0 : getStore st sid with
        | none =>
          have hrw : (submit_mfa st sid code).2 = st := by
            simp [submit_mfa, hg0]
          rw [hrw] at hg'
          exact hsess sid s' hg'
        | some s =>
          by_cases hs : s.status = "mfa_required"
          · have hrw : (submit_mfa st sid code).2 =
                setStore st sid
                  { s with
                    mfa_code := some code
                    status := "mfa_received"
                    mfaEventSet := true } := by
              simp [submit_mfa, hg0, hs]
            rw [hrw, getStore_setStore_self hg0] at hg'
            injection hg' with h
            obtain ⟨pc0, hpc0, hok⟩ := hsess sid s hg0
            refine ⟨pc0, hpc0, ?_⟩
            rw [← h]
            cases pc0 <;>
              simp_all [pcOk, preMfa, midWait]
          · have hrw : (submit_mfa st sid code).2 = st := by
              simp [submit_mfa, hg0, hs]
            rw [hrw] at hg'
            exact hsess sid s' hg'
      · rw [getStore_submit_snd_ne hsid] at hg'
        obtain ⟨pc0, hpc0, hok⟩ := hsess sid' s' hg'
        exact ⟨pc0, hpc0, hok⟩
  | @getTok st tasks sid now =>
    obtain ⟨hnd, hsess⟩ := hinv
    rcases get_token_snd_cases st sid now with hcase | hcase
    · rw [hcase]
      exact ⟨hnd, hsess⟩
    · rw [hcase]
      constructor
      · exact List.Nodup.sublist (storeKeys_eraseStore_sublist st sid) hnd
      · intro sid' s' hg'
        by_cases hsid : sid' = sid
        · subst hsid
          rw [getStore_eraseStore_self hnd] at hg'
          cases hg'
        · rw [getStore_eraseStore_ne hsid] at hg'
          exact hsess sid' s' hg'

/-- Every reachable state of the interleaved system satisfies the invariant. -/
theorem reachable_sysInv {c : Config} (h : Reachable c) : SysInv c := by
  unfold Reachable at h
  induction h with
  | refl =>
    constructor
    · simp [StoreNodup, storeKeys, initConfig]
    · intro sid s hg
      simp [getStore, initConfig] at hg
  | tail hsteps hstep ih =>
    exact sysInv_step ih hstep

/-! ### Concrete executions -/

theorem gA0 : GStep initConfig cfgA1 :=
  GStep.create "s1" "alice" "pw1" 0 rfl rfl

theorem gA1 : GStep cfgA1 cfgA2 :=
  GStep.task (show taskOf [("s1", LoginPc.start)] "s1" = some .start from rfl)
    (@TStep.start_present [("s1", sessA)] "s1" sessA rfl)

theorem gA2 : GStep cfgA2 cfgA3 :=
  GStep.task (show taskOf [("s1", LoginPc.setAuth1)] "s1" = some .setAuth1 from rfl)
    (@TStep.auth1 [("s1", sessA)] "s1")

theorem gA3 : GStep cfgA3 cfgA4 :=
  GStep.task (show taskOf [("s1", LoginPc.loginCall)] "s1" = some .loginCall from rfl)
    (@TStep.login_ok [("s1", sessA)] "s1" "tok0")

theorem gA4 : GStep cfgA4 cfgA5 :=
  GStep.task
    (show taskOf [("s1", LoginPc.storeToken "tok0")] "s1" = some (.storeToken "tok0") from rfl)
    (@TStep.store_tok [("s1", sessA)] "s1" "tok0")

theorem gA5 : GStep cfgA5 cfgA6 :=
  GStep.task (show taskOf [("s1", LoginPc.setSuccess)] "s1" = some .setSuccess from rfl)
    (@TStep.set_success [("s1", sessA_tok)] "s1")

theorem reach_cfgA5 : Reachable cfgA5 :=
  Relation.ReflTransGen.tail
    (Relation.ReflTransGen.tail
      (Relation.ReflTransGen.tail
        (Relation.ReflTransGen.tail (Relation.ReflTransGen.single gA0) gA1) gA2)
      gA3)
    gA4

theorem reach_cfgA6 : Reachable cfgA6 :=
  Relation.ReflTransGen.tail reach_cfgA5 gA5

theorem gB0 : GStep initConfig cfgB1 :=
  GStep.create "s1" "bob" "pw2" 0 rfl rfl

theorem gB1 : GStep cfgB1 cfgB2 :=
  GStep.task (show taskOf [("s1", LoginPc.start)] "s1" = some .start from rfl)
    (@TStep.start_present [("s1", sessB)] "s1" sessB rfl)

theorem gB2 : GStep cfgB2 cfgB3 :=
  GStep.task (show taskOf [("s1", LoginPc.setAuth1)] "s1" = some .setAuth1 from rfl)
    (@TStep.auth1 [("s1", sessB)] "s1")

theorem gB3 : GStep cfgB3 cfgB4 :=
  GStep.task (show taskOf [("s1", LoginPc.loginCall)] "s1" = some .loginCall from rfl)
    (@TStep.login_mfa [("s1", sessB)] "s1")

theorem gB4 : GStep cfgB4 cfgB5 :=
  GStep.task (show taskOf [("s1", LoginPc.mfaRequired)] "s1" = some .mfaRequired from rfl)
    (@TStep.mfa_req [("s1", sessB)] "s1")

theorem gB5 : GStep cfgB5 cfgB6 :=
  GStep.task (show taskOf [("s1", LoginPc.waitEnter)] "s1" = some .waitEnter from rfl)
    (@TStep.wait_pending [("s1", sessB_req)] "s1" sessB_req rfl rfl)

theorem gB6 : GStep cfgB6 cfgB7 :=
  GStep.task (show taskOf [("s1", LoginPc.waiting)] "s1" = some .waiting from rfl)
    (@TStep.resume_timeout [("s1", sessB_req)] "s1" sessB_req rfl rfl)

theorem gB7 : GStep cfgB7 cfgB8 :=
  GStep.task
    (show taskOf [("s1", LoginPc.setFailed "MFA timeout")] "s1" =
      some (.setFailed "MFA timeout") from rfl)
    (@TStep.set_failed [("s1", sessB_to)] "s1" "MFA timeout")

theorem reach_cfgB6 : Reachable cfgB6 :=
  Relation.ReflTransGen.tail
    (Relation.ReflTransGen.tail
      (Relation.ReflTransGen.tail
        (Relation.ReflTransGen.tail
          (Relation.ReflTransGen.tail (Relation.ReflTransGen.single gB0) gB1) gB2)
        gB3)
      gB4)
    gB5

theorem reach_cfgB7 : Reachable cfgB7 :=
  Relation.ReflTransGen.tail reach_cfgB6 gB6

theorem reach_cfgB8 : Reachable cfgB8 :=
  Relation.ReflTransGen.tail reach_cfgB7 gB7

theorem gC0 : GStep initConfig cfgC1 :=
  GStep.create "s1" "carol" "pw3" 0 rfl rfl

theorem gC1 : GStep cfgC1 cfgC2 :=
  GStep.task (show taskOf [("s1", LoginPc.start)] "s1" = some .start from rfl)
    (@TStep.start_present [("s1", sessC)] "s1" sessC rfl)

theorem gC2 : GStep cfgC2 cfgC3 :=
  GStep.task (show taskOf [("s1", LoginPc.setAuth1)] "s1" = some .setAuth1 from rfl)
    (@TStep.auth1 [("s1", sessC)] "s1")

theorem gC3 : GStep cfgC3 cfgC4 :=
  GStep.task (show taskOf [("s1", LoginPc.loginCall)] "s1" = some .loginCall from rfl)
    (@TStep.login_err [("s1", sessC)] "s1" "")

theorem gC4 : GStep cfgC4 cfgC5 :=
  GStep.task
    (show taskOf [("s1", LoginPc.setFailed "")] "s1" = some (.setFailed "") from rfl)
    (@TStep.set_failed [("s1", sessC)] "s1" "")

theorem reach_cfgC5 : Reachable cfgC5 :=
  Relation.ReflTransGen.tail
    (Relation.ReflTransGen.tail
      (Relation.ReflTransGen.tail
        (Relation.ReflTransGen.tail (Relation.ReflTransGen.single gC0) gC1) gC2)
      gC3)
    gC4

/-! ### Claims about the pure boundary operations -/

theorem submit_mfa_accepted_inv {st st1 : Store} {sid code : String}
    (h : submit_mfa st sid code = (true, st1)) :
    ∃ s, getStore st sid = some s ∧ s.status = "mfa_required" ∧
      st1 = setStore st sid
        { s with
          mfa_code := some code
          status := "mfa_received"
          mfaEventSet := true } := by
  cases hg : getStore st sid with
  | none =>
    have hrw : submit_mfa st sid code = (false, st) := by simp [submit_mfa, hg]
    rw [hrw] at h
    simp at h
  | some s =>
    by_cases hs : s.status = "mfa_required"
    · have hrw : submit_mfa st sid code =
          (true, setStore st sid
            { s with
              mfa_code := some code
              status := "mfa_received"
              mfaEventSet := true }) := by
        simp [submit_mfa, hg, hs]
      rw [hrw] at h
      injection h with h1 h2
      exact ⟨s, rfl, hs, h2.symm⟩
    · have hrw : submit_mfa st sid code = (false, st) := by simp [submit_mfa, hg, hs]
      rw [hrw] at h
      simp at h

/-- C4: `submit_mfa` on a session that is absent or not in `"mfa_required"`
returns `False` and leaves the whole table — hence every session's fields —
unchanged; it is a total function, so no exception is raised.  In particular,
a second call right after an accepted one is rejected, because the accepted
call moved the status to `"mfa_received"`. -/
theorem C4_submit_rejected_pure (st : Store) (sid code : String)
    (h : ∀ s, getStore st sid = some s → s.status ≠ "mfa_required")
    (st0 st1 : Store) (sid0 c1 c2 : String)
    (hacc : submit_mfa st0 sid0 c1 = (true, st1)) :
    submit_mfa st sid code = (false, st) ∧ (submit_mfa st1 sid0 c2).1 = false := by
  constructor
  · exact submit_mfa_snd_rejected h
  · obtain ⟨s, hg, hs, hst1⟩ := submit_mfa_accepted_inv hacc
    have hg1 : getStore st1 sid0 =
        some { s with
          mfa_code := some c1
          status := "mfa_received"
          mfaEventSet := true } := by
      rw [hst1]
      exact getStore_setStore_self hg
    simp [submit_mfa, hg1]

theorem C4_witness :
    submit_mfa W6store "s1" "x" = (false, W6store) ∧
    (submit_mfa (setStore W5store "s1"
      { sessW5 with
        mfa_code := some "111"
        status := "mfa_received"
        mfaEventSet := true }) "s1" "222").1 = false := by
  refine C4_submit_rejected_pure W6store "s1" "x" ?_ W5store _ "s1" "111" "222" rfl
  intro s hs
  injection hs with hs
  rw [← hs]
  decide

/-- C5: `submit_mfa` on a session in `"mfa_required"` records the code,
moves the status to `"mfa_received"`, sets the waiter event, and accepts. -/
theorem C5_submit_accepted (st : Store) (sid code : String) (s : Session)
    (hg : getStore st sid = some s) (hs : s.status = "mfa_required") :
    (submit_mfa st sid code).1 = true ∧
    getStore (submit_mfa st sid code).2 sid =
      some { s with
        mfa_code := some code
        status := "mfa_received"
        mfaEventSet := true } := by
  have hrw : submit_mfa st sid code =
      (true, setStore st sid
        { s with
          mfa_code := some code
          status := "mfa_received"
          mfaEventSet := true }) := by
    simp [submit_mfa, hg, hs]
  rw [hrw]
  exact ⟨rfl, getStore_setStore_self hg⟩

theorem C5_witness :
    (submit_mfa W5store "s1" "654321").1 = true ∧
    getStore (submit_mfa W5store "s1" "654321").2 "s1" =
      some { sessW5 with
        mfa_code := some "654321"
        status := "mfa_received"
        mfaEventSet := true } :=
  C5_submit_accepted W5store "s1" "654321" sessW5 rfl rfl

/-- C6 fails on the code for the empty-string token: `get_session_access_token`
checks the token with Python truthiness (`if not access_token`), so a fresh
successful session whose stored token is `""` (non-null) yields `None`
instead of the token, although its age is far below 2 hours. -/
theorem C6_counterexample :
    getStore C6store "s1" = some sessC6 ∧
    sessC6.status = "success" ∧
    sessC6.access_token = some "" ∧
    (0 : Nat) - sessC6.created_at < 2 * 3600 ∧
    get_session_access_token C6store "s1" 0 = (none, C6store) ∧
    (get_session_access_token C6store "s1" 0).1 ≠ some "" :=
  ⟨rfl, rfl, rfl, by decide, rfl, by decide⟩

/-- C6 amended: for a `"success"` session whose token is non-null *and
non-empty*, a read strictly younger than 2 hours returns the token and leaves
the table unchanged, and a read at or past 2 hours returns `None` and deletes
the session. -/
theorem C6_token_freshness (st : Store) (sid tok : String) (s : Session) (now : Nat)
    (hg : getStore st sid = some s) (hs : s.status = "success")
    (ht : s.access_token = some tok) (hne : tok ≠ "") :
    (now - s.created_at < 2 * 3600 →
      get_session_access_token st sid now = (some tok, st)) ∧
    (2 * 3600 ≤ now - s.created_at →
      get_session_access_token st sid now = (none, eraseStore st sid)) := by
  constructor
  · intro hage
    simp [get_session_access_token, hg, hs, ht, hne, hage]
  · intro hage
    simp [get_session_access_token, hg, hs, ht, hne, Nat.not_lt.mpr hage]

theorem C6_witness :
    get_session_access_token W6store "s1" 100 = (some "tok6", W6store) ∧
    get_session_access_token W6store "s1" 7200 = (none, eraseStore W6store "s1") :=
  ⟨(C6_token_freshness W6store "s1" "tok6" sessW6 100 rfl rfl rfl (by decide)).1
      (by decide),
   (C6_token_freshness W6store "s1" "tok6" sessW6 7200 rfl rfl rfl (by decide)).2
      (by decide)⟩

/-- C10: when the session is missing, not `"success"`, or has a null token,
`get_session_access_token` returns `None` and leaves the table unchanged —
no eviction happens on such a read, whatever the session's age. -/
theorem C10_no_evict_on_miss (st : Store) (sid : String) (now : Nat)
    (h : ∀ s, getStore st sid = some s →
      s.status ≠ "success" ∨ s.access_token = none) :
    get_session_access_token st sid now = (none, st) := by
  unfold get_session_access_token
  cases hg : getStore st sid with
  | none => rfl
  | some s =>
    rcases h s hg with hs | ht
    · simp [hs]
    · by_cases hs : s.status = "success"
      · simp [hs, ht]
      · simp [hs]

theorem C10_witness :
    get_session_access_token W5store "s1" 999999999 = (none, W5store) := by
  refine C10_no_evict_on_miss W5store "s1" 999999999 ?_
  intro s hs
  injection hs with hs
  rw [← hs]
  exact Or.inl (by decide)

/-! ### Claims about the coordinator's error handling -/

/-- C8: for a session id absent from the table (e.g. evicted mid-flight),
`authenticate_with_collector` exits at its first lookup with the
`"Session not found"` error result and touches nothing, and `wait_for_mfa`
likewise returns `None` (which the callback converts into the caught
`"MFA timeout"` raise) without touching the table.  Both are total: no
exception escapes. -/
theorem C8_absent_session (st st1 st2 : Store) (sid : String) (pc1 pc2 : LoginPc)
    (h : getStore st sid = none)
    (h1 : TStep st sid .start st1 pc1)
    (h2 : TStep st sid .waitEnter st2 pc2) :
    st1 = st ∧ pc1 = .done (.error "Session not found") ∧
    st2 = st ∧ pc2 = mfa_callback_after_wait none := by
  obtain ⟨e1, e2⟩ : st1 = st ∧ pc1 = .done (.error "Session not found") := by
    cases h1 with
    | start_absent h' => exact ⟨rfl, rfl⟩
    | start_present h' =>
      rw [h] at h'
      cases h'
  obtain ⟨e3, e4⟩ : st2 = st ∧ pc2 = mfa_callback_after_wait none := by
    cases h2 with
    | wait_absent h' => exact ⟨rfl, rfl⟩
    | wait_pending h' hev =>
      rw [h] at h'
      cases h'
    | wait_ready h' hev =>
      rw [h] at h'
      cases h'
  exact ⟨e1, e2, e3, e4⟩

theorem C8_witness :
    ([] : Store) = [] ∧
    LoginPc.done (.error "Session not found") = .done (.error "Session not found") ∧
    ([] : Store) = [] ∧
    mfa_callback_after_wait none = mfa_callback_after_wait none :=
  C8_absent_session [] [] [] "s1" _ _ rfl (TStep.start_absent rfl)
    (TStep.wait_absent rfl)

/-- C7 fails on the code for an exception whose message is the empty string:
`update_session_status` stores the message only when it is truthy
(`if error:`), so the run below ends with `status = "failed"` but
`error = None` — the message `""` was not stored. -/
theorem C7_counterexample :
    Reachable cfgC5 ∧
    taskOf cfgC5.tasks "s1" = some (.done (.error "")) ∧
    getStore cfgC5.store "s1" = some sessC_fail ∧
    sessC_fail.status = "failed" ∧
    sessC_fail.error = none ∧
    ¬ sessC_fail.error = some "" :=
  ⟨reach_cfgC5, rfl, rfl, rfl, rfl, by decide⟩

/-- C7 amended: every exception of the external exchange is caught and
converted into a normal `{"status": "error"}` return with `status = "failed"`;
the message is stored in `error` when it is non-empty, while an empty message
leaves the previous `error` value in place. -/
theorem C7_exception_to_failed (st st' : Store) (sid m : String) (s : Session)
    (pc' : LoginPc)
    (hg : getStore st sid = some s)
    (hstep : TStep st sid (.setFailed m) st' pc') :
    pc' = .done (.error m) ∧
    getStore st' sid =
      some { s with
        status := "failed"
        error := if m = "" then s.error else some m } := by
  cases hstep with
  | set_failed => exact ⟨rfl, getStore_update_self_err hg⟩

theorem C7_witness :
    LoginPc.done (.error "boom") = .done (.error "boom") ∧
    getStore (update_session_status [("s1", sessC)] "s1" "failed" (some "boom") none)
        "s1" =
      some { sessC with status := "failed", error := some "boom" } :=
  C7_exception_to_failed [("s1", sessC)] _ "s1" "boom" sessC _ rfl
    (TStep.set_failed "boom")

/-- C9: submitting the empty-string code to a session in `"mfa_required"` is
accepted (`True`), but the resuming waiter reads the falsy `""`, treats it as
no code (`if not mfa_code`), and raises `"MFA timeout"`, so the login ends in
`status = "failed"` with `error = "MFA timeout"` even though the submission
was accepted. -/
theorem C9_empty_code_accepted_then_failed (st st' st'' : Store) (sid : String)
    (s : Session) (pc' pc'' : LoginPc)
    (hg : getStore st sid = some s) (hs : s.status = "mfa_required")
    (hstep : TStep (submit_mfa st sid "").2 sid .waiting st' pc')
    (hstep2 : TStep st' sid (.setFailed "MFA timeout") st'' pc'') :
    (submit_mfa st sid "").1 = true ∧
    st' = (submit_mfa st sid "").2 ∧
    pc' = .setFailed "MFA timeout" ∧
    pc'' = .done (.error "MFA timeout") ∧
    getStore st'' sid =
      some { s with
        mfa_code := some ""
        mfaEventSet := true
        status := "failed"
        error := some "MFA timeout" } := by
  have hrw : submit_mfa st sid "" =
      (true, setStore st sid
        { s with mfa_code := some "", status := "mfa_received", mfaEventSet := true }) := by
    simp [submit_mfa, hg, hs]
  have hg1 : getStore (submit_mfa st sid "").2 sid =
      some { s with mfa_code := some "", status := "mfa_received", mfaEventSet := true } := by
    rw [hrw]
    exact getStore_setStore_self hg
  obtain ⟨e1, e2⟩ : st' = (submit_mfa st sid "").2 ∧ pc' = .setFailed "MFA timeout" := by
    cases hstep with
    | resume_code h' hev =>
      rw [hg1] at h'
      injection h' with h'
      refine ⟨rfl, ?_⟩
      rw [← h']
      rfl
    | resume_timeout h' hev =>
      rw [hg1] at h'
      injection h' with h'
      rw [← h'] at hev
      simp at hev
    | resume_timeout_absent h' =>
      rw [hg1] at h'
      cases h'
  subst e1
  obtain ⟨e4, e5⟩ : pc'' = .done (.error "MFA timeout") ∧
      getStore st'' sid =
        some { s with
          mfa_code := some ""
          mfaEventSet := true
          status := "failed"
          error := some "MFA timeout" } := by
    cases hstep2 with
    | set_failed =>
      refine ⟨rfl, ?_⟩
      rw [getStore_update_self_err hg1]
      rfl
  refine ⟨?_, rfl, e2, e4, e5⟩
  rw [hrw]

theorem C9_witness :
    (submit_mfa W5store "s1" "").1 = true ∧
    (submit_mfa W5store "s1" "").2 = (submit_mfa W5store "s1" "").2 ∧
    LoginPc.setFailed "MFA timeout" = .setFailed "MFA timeout" ∧
    LoginPc.done (.error "MFA timeout") = .done (.error "MFA timeout") ∧
    getStore
        (update_session_status (submit_mfa W5store "s1" "").2 "s1" "failed"
          (some "MFA timeout") none) "s1" =
      some { sessW5 with
        mfa_code := some ""
        mfaEventSet := true
        status := "failed"
        error := some "MFA timeout" } :=
  C9_empty_code_accepted_then_failed W5store _ _ "s1" sessW5 _ _ rfl rfl
    (@TStep.resume_code (submit_mfa W5store "s1" "").2 "s1"
      { sessW5 with mfa_code := some "", status := "mfa_received", mfaEventSet := true }
      rfl rfl)
    (TStep.set_failed "MFA timeout")

/-! ### Claims about the interleaved system -/

theorem c2_aux {s : Session} {P : Prop} (htok : s.access_token = none)
    (hne : s.status ≠ "success") :
    (s.status = "success" → s.access_token ≠ none) ∧ (s.access_token ≠ none → P) :=
  ⟨fun hcon => absurd hcon hne, fun hcon => absurd htok hcon⟩

theorem status_ne_of {s : Session} {a b : String} (h : s.status = a) (hab : a ≠ b) :
    s.status ≠ b := fun h' => hab (h.symm.trans h')

/-- C2 fails at a reachable intermediate state: the token write (line 142)
precedes the status update to `"success"` (line 146), and the lock
acquisition between them is a suspension point, so a concurrent reader can
observe a non-null `access_token` while `status` is still
`"authenticating"`. -/
theorem C2_counterexample :
    Reachable cfgA5 ∧
    getStore cfgA5.store "s1" = some sessA_tok ∧
    sessA_tok.access_token = some "tok0" ∧
    sessA_tok.status = "authenticating" ∧
    ¬ (sessA_tok.status = "success" ↔ sessA_tok.access_token ≠ none) :=
  ⟨reach_cfgA5, rfl, rfl, rfl, by decide⟩

/-- C2 amended: in every reachable state, `status = "success"` implies a
non-null token, and a non-null token implies `status = "success"` except in
the single window where the login task has stored the token and is about to
set the status (`status` still `"authenticating"`, program counter at the
`"success"` update). -/
theorem C2_success_iff_token (c : Config) (sid : String) (s : Session)
    (h : Reachable c) (hg : getStore c.store sid = some s) :
    (s.status = "success" → s.access_token ≠ none) ∧
    (s.access_token ≠ none →
      s.status = "success" ∨
        (s.status = "authenticating" ∧ taskOf c.tasks sid = some .setSuccess)) := by
  obtain ⟨-, hsess⟩ := reachable_sysInv h
  obtain ⟨pc, hpc, hok⟩ := hsess sid s hg
  cases pc with
  | start => exact c2_aux hok.2.1 (status_ne_of hok.1 (by decide))
  | setAuth1 => exact c2_aux hok.2.1 (status_ne_of hok.1 (by decide))
  | loginCall => exact c2_aux hok.2.1 (status_ne_of hok.1 (by decide))
  | mfaRequired => exact c2_aux hok.2.1 (status_ne_of hok.1 (by decide))
  | waitEnter =>
    rcases hok.2 with ⟨h1, -⟩ | ⟨h1, -, -⟩
    · exact c2_aux hok.1 (status_ne_of h1 (by decide))
    · exact c2_aux hok.1 (status_ne_of h1 (by decide))
  | waiting =>
    rcases hok.2 with ⟨h1, -⟩ | ⟨h1, -, -⟩
    · exact c2_aux hok.1 (status_ne_of h1 (by decide))
    · exact c2_aux hok.1 (status_ne_of h1 (by decide))
  | setAuth2 code => exact c2_aux hok.2.2.2 (status_ne_of hok.1 (by decide))
  | resumeLogin code => exact c2_aux hok.2 (status_ne_of hok.1 (by decide))
  | storeToken tok => exact c2_aux hok.2 (status_ne_of hok.1 (by decide))
  | setSuccess => exact ⟨fun _ => hok.2, fun _ => Or.inr ⟨hok.1, hpc⟩⟩
  | setFailed m =>
    rcases hok.2 with h1 | h1 | ⟨h1, -, -⟩
    · exact c2_aux hok.1 (status_ne_of h1 (by decide))
    · exact c2_aux hok.1 (status_ne_of h1 (by decide))
    · exact c2_aux hok.1 (status_ne_of h1 (by decide))
  | done r =>
    rcases hok with ⟨h1, h2, -⟩ | ⟨h1, h2⟩
    · exact ⟨fun _ => h2, fun _ => Or.inl h1⟩
    · exact c2_aux h2 (status_ne_of h1 (by decide))

theorem C2_witness :
    (sessA_done.status = "success" → sessA_done.access_token ≠ none) ∧
    (sessA_done.access_token ≠ none →
      sessA_done.status = "success" ∨
        (sessA_done.status = "authenticating" ∧
          taskOf cfgA6.tasks "s1" = some .setSuccess)) :=
  C2_success_iff_token cfgA6 "s1" sessA_done reach_cfgA6 rfl

theorem c3_refl_aux {s : Session} :
    (s.status = "success" → s.status = "success") ∧
    (s.status = "failed" → s.status = "failed") ∧
    (s.status = "timeout" → s.status = "timeout" ∨ s.status = "failed") :=
  ⟨fun x => x, fun x => x, fun x => Or.inl x⟩

theorem c3_vac_aux {s s' : Session} {a : String} (h : s.status = a)
    (h1 : a ≠ "success") (h2 : a ≠ "failed") (h3 : a ≠ "timeout") :
    (s.status = "success" → s'.status = "success") ∧
    (s.status = "failed" → s'.status = "failed") ∧
    (s.status = "timeout" → s'.status = "timeout" ∨ s'.status = "failed") :=
  ⟨fun hx => absurd (h.symm.trans hx) h1, fun hx => absurd (h.symm.trans hx) h2,
   fun hx => absurd (h.symm.trans hx) h3⟩

/-- C3 fails on the code: `"timeout"` is reachable (set by `wait_for_mfa`'s
timeout handler), yet the very next slice of the coordinator overwrites this
terminal status with `"failed"` via `update_session_status` — a regression
out of a terminal state. -/
theorem C3_counterexample :
    Reachable cfgB7 ∧
    (getStore cfgB7.store "s1").map Session.status = some "timeout" ∧
    GStep cfgB7 cfgB8 ∧
    (getStore cfgB8.store "s1").map Session.status = some "failed" :=
  ⟨reach_cfgB7, rfl, gB7, rfl⟩

/-- C3 amended: over every step from a reachable state, `"success"` and
`"failed"` are genuinely terminal, but `"timeout"` is only semi-stable: it
either persists or is overwritten once to `"failed"` by the coordinator's
exception handler. -/
theorem C3_terminal_persistence (c c' : Config) (sid : String) (s s' : Session)
    (h : Reachable c) (hstep : GStep c c')
    (hg : getStore c.store sid = some s) (hg' : getStore c'.store sid = some s') :
    (s.status = "success" → s'.status = "success") ∧
    (s.status = "failed" → s'.status = "failed") ∧
    (s.status = "timeout" → s'.status = "timeout" ∨ s'.status = "failed") := by
  obtain ⟨hnd, hsess⟩ := reachable_sysInv h
  cases hstep with
  | @task st tasks sid0 pc st' pc' htask htstep =>
    by_cases hsid : sid = sid0
    · subst hsid
      obtain ⟨pc1, hpc1, hok⟩ := hsess sid s hg
      rw [htask] at hpc1
      injection hpc1 with hpc1
      subst hpc1
      cases htstep with
      | start_absent h' =>
        rw [hg] at hg'
        injection hg' with e
        subst e
        exact c3_refl_aux
      | start_present h' =>
        rw [hg] at hg'
        injection hg' with e
        subst e
        exact c3_refl_aux
      | auth1 => exact c3_vac_aux hok.1 (by decide) (by decide) (by decide)
      | login_mfa =>
        rw [hg] at hg'
        injection hg' with e
        subst e
        exact c3_refl_aux
      | login_ok tok =>
        rw [hg] at hg'
        injection hg' with e
        subst e
        exact c3_refl_aux
      | login_err msg =>
        rw [hg] at hg'
        injection hg' with e
        subst e
        exact c3_refl_aux
      | mfa_req => exact c3_vac_aux hok.1 (by decide) (by decide) (by decide)
      | wait_absent h' =>
        rw [hg] at hg'
        injection hg' with e
        subst e
        exact c3_refl_aux
      | wait_pending h' hev =>
        rw [hg] at hg'
        injection hg' with e
        subst e
        exact c3_refl_aux
      | wait_ready h' hev =>
        rw [hg] at hg'
        injection hg' with e
        subst e
        exact c3_refl_aux
      | resume_code h' hev =>
        rw [hg] at hg'
        injection hg' with e
        subst e
        exact c3_refl_aux
      | resume_timeout h' hev =>
        rcases hok.2 with ⟨h1, -⟩ | ⟨h1, -, -⟩
        · exact c3_vac_aux h1 (by decide) (by decide) (by decide)
        · exact c3_vac_aux h1 (by decide) (by decide) (by decide)
      | resume_timeout_absent h' =>
        rw [hg] at hg'
        injection hg' with e
        subst e
        exact c3_refl_aux
      | auth2 code => exact c3_vac_aux hok.1 (by decide) (by decide) (by decide)
      | resume_ok code tok =>
        rw [hg] at hg'
        injection hg' with e
        subst e
        exact c3_refl_aux
      | resume_err code msg =>
        rw [hg] at hg'
        injection hg' with e
        subst e
        exact c3_refl_aux
      | store_tok tok =>
        rw [getStore_store_access_token_self hg] at hg'
        injection hg' with e
        rw [← e]
        exact c3_vac_aux hok.1 (by decide) (by decide) (by decide)
      | set_success => exact c3_vac_aux hok.1 (by decide) (by decide) (by decide)
      | set_failed msg =>
        rcases hok.2 with h1 | h1 | ⟨h1, -, -⟩
        · exact c3_vac_aux h1 (by decide) (by decide) (by decide)
        · exact c3_vac_aux h1 (by decide) (by decide) (by decide)
        · refine ⟨fun hx => absurd (h1.symm.trans hx) (by decide),
            fun hx => absurd (h1.symm.trans hx) (by decide), fun hx => ?_⟩
          rw [getStore_update_self_err hg] at hg'
          injection hg' with e
          rw [← e]
          exact Or.inr rfl
    · rw [tstep_frame htstep sid hsid, hg] at hg'
      injection hg' with e
      subst e
      exact c3_refl_aux
  | @create st tasks sid0 u p n hf hft =>
    by_cases hsid : sid = sid0
    · subst hsid
      rw [hf] at hg
      cases hg
    · simp only [create_session, getStore, if_neg (Ne.symm hsid)] at hg'
      rw [hg] at hg'
      injection hg' with e
      subst e
      exact c3_refl_aux
  | @submit st tasks sid0 code =>
    by_cases hsid : sid = sid0
    · subst hsid
      by_cases hs : s.status = "mfa_required"
      · exact c3_vac_aux hs (by decide) (by decide) (by decide)
      · have hrw : (submit_mfa st sid code).2 = st := by
          simp [submit_mfa, hg, hs]
        rw [hrw, hg] at hg'
        injection hg' with e
        subst e
        exact c3_refl_aux
    · rw [getStore_submit_snd_ne hsid, hg] at hg'
      injection hg' with e
      subst e
      exact c3_refl_aux
  | @getTok st tasks sid0 now =>
    rcases get_token_snd_cases st sid0 now with hc | hc
    · rw [hc, hg] at hg'
      injection hg' with e
      subst e
      exact c3_refl_aux
    · rw [hc] at hg'
      by_cases hsid : sid = sid0
      · subst hsid
        rw [getStore_eraseStore_self hnd] at hg'
        cases hg'
      · rw [getStore_eraseStore_ne hsid, hg] at hg'
        injection hg' with e
        subst e
        exact c3_refl_aux

theorem C3_witness :
    (sessA_done.status = "success" → sessA_done.status = "success") ∧
    (sessA_done.status = "failed" → sessA_done.status = "failed") ∧
    (sessA_done.status = "timeout" →
      sessA_done.status = "timeout" ∨ sessA_done.status = "failed") :=
  C3_terminal_persistence cfgA6
    ⟨(submit_mfa cfgA6.store "s1" "zz").2, cfgA6.tasks⟩ "s1" sessA_done sessA_done
    reach_cfgA6 (GStep.submit "s1" "zz") rfl rfl

/-- C1 fails on the code: a run whose MFA wait expires (no code ever
submitted, `mfa_event` still unset at `cfgB6`) passes through the transient
`"timeout"` status but completes with `status = "failed"` — the catch-all
handler turns the `"MFA timeout"` raise into `"failed"`, overwriting the
`"timeout"` status that `wait_for_mfa` wrote. -/
theorem C1_counterexample :
    Reachable cfgB6 ∧
    taskOf cfgB6.tasks "s1" = some .waiting ∧
    (getStore cfgB6.store "s1").map Session.mfaEventSet = some false ∧
    Relation.ReflTransGen GStep cfgB6 cfgB8 ∧
    taskOf cfgB8.tasks "s1" = some (.done (.error "MFA timeout")) ∧
    getStore cfgB8.store "s1" = some sessB_fail ∧
    sessB_fail.status = "failed" ∧
    ¬ sessB_fail.status = "timeout" ∧
    sessB_fail.access_token = none ∧
    sessB_fail.error = some "MFA timeout" :=
  ⟨reach_cfgB6, rfl, rfl,
    Relation.ReflTransGen.tail (Relation.ReflTransGen.single gB6) gB7,
    rfl, rfl, rfl, by decide, rfl, rfl⟩

/-- C1 amended: when the MFA wait has exceeded the bound with no code
submitted, the session momentarily shows `status = "timeout"` with
`error = "MFA timeout"` and no token, and the login run's one remaining step
replaces the status by the terminal `"failed"`, keeping `error =
"MFA timeout"` and `access_token = None`. -/
theorem C1_timeout_ends_failed (c : Config) (st' : Store) (pc' : LoginPc)
    (sid : String) (s : Session)
    (h : Reachable c) (hg : getStore c.store sid = some s)
    (hst : s.status = "timeout")
    (hstep : TStep c.store sid (.setFailed "MFA timeout") st' pc') :
    s.error = some "MFA timeout" ∧ s.access_token = none ∧
    taskOf c.tasks sid = some (.setFailed "MFA timeout") ∧
    pc' = .done (.error "MFA timeout") ∧
    getStore st' sid =
      some { s with status := "failed", error := some "MFA timeout" } := by
  obtain ⟨-, hsess⟩ := reachable_sysInv h
  obtain ⟨pc, hpc, hok⟩ := hsess sid s hg
  have key : pc = .setFailed "MFA timeout" ∧ s.error = some "MFA timeout" ∧
      s.access_token = none := by
    cases pc with
    | start => exact absurd (hok.1.symm.trans hst) (by decide)
    | setAuth1 => exact absurd (hok.1.symm.trans hst) (by decide)
    | loginCall => exact absurd (hok.1.symm.trans hst) (by decide)
    | mfaRequired => exact absurd (hok.1.symm.trans hst) (by decide)
    | waitEnter =>
      rcases hok.2 with ⟨h1, -⟩ | ⟨h1, -, -⟩
      · exact absurd (h1.symm.trans hst) (by decide)
      · exact absurd (h1.symm.trans hst) (by decide)
    | waiting =>
      rcases hok.2 with ⟨h1, -⟩ | ⟨h1, -, -⟩
      · exact absurd (h1.symm.trans hst) (by decide)
      · exact absurd (h1.symm.trans hst) (by decide)
    | setAuth2 code => exact absurd (hok.1.symm.trans hst) (by decide)
    | resumeLogin code => exact absurd (hok.1.symm.trans hst) (by decide)
    | storeToken tok => exact absurd (hok.1.symm.trans hst) (by decide)
    | setSuccess => exact absurd (hok.1.symm.trans hst) (by decide)
    | setFailed m =>
      rcases hok.2 with h1 | h1 | ⟨-, hm, herr⟩
      · exact absurd (h1.symm.trans hst) (by decide)
      · exact absurd (h1.symm.trans hst) (by decide)
      · subst hm
        exact ⟨rfl, herr, hok.1⟩
    | done r =>
      rcases hok with ⟨h1, -, -⟩ | ⟨h1, -⟩
      · exact absurd (h1.symm.trans hst) (by decide)
      · exact absurd (h1.symm.trans hst) (by decide)
  obtain ⟨e0, herr, htok⟩ := key
  subst e0
  cases hstep with
  | set_failed =>
    refine ⟨herr, htok, hpc, rfl, ?_⟩
    rw [getStore_update_self_err hg]
    rfl

theorem C1_witness :
    sessB_to.error = some "MFA timeout" ∧
    sessB_to.access_token = none ∧
    taskOf cfgB7.tasks "s1" = some (.setFailed "MFA timeout") ∧
    LoginPc.done (.error "MFA timeout") = .done (.error "MFA timeout") ∧
    getStore
        (update_session_status cfgB7.store "s1" "failed" (some "MFA timeout") none)
        "s1" =
      some { sessB_to with status := "failed", error := some "MFA timeout" } :=
  C1_timeout_ends_failed cfgB7 _ _ "s1" sessB_to reach_cfgB7 rfl rfl
    (TStep.set_failed "MFA timeout")
